import Mathlib

/-!
Shallow embedding of the IMX708 camera-sensor driver core
(drivers/media/i2c/imx708.c) and proofs about its mode negotiation,
exposure/frame-length derivation, control application and streaming
state machine.

Register transport and runtime-PM are external collaborators; they are
modelled by an oracle environment (`Env`) that decides the outcome of
each bus transaction and power operation.  Every driver function is
translated directly from the C source; stateful functions thread an
explicit `Dev` record and accumulate the list of attempted register
writes.
-/

namespace Imx708

/-! ## Numeric constants from the source header block -/

def IMX708_REG_MODE_SELECT : Nat := 0x0100
def IMX708_MODE_STANDBY : Nat := 0x00
def IMX708_MODE_STREAMING : Nat := 0x01
def IMX708_REG_ORIENTATION : Nat := 0x101
def IMX708_REG_FRAME_LENGTH : Nat := 0x0340
def IMX708_FRAME_LENGTH_MAX : Nat := 0xffff
def IMX708_LONG_EXP_SHIFT_MAX : Nat := 7
def IMX708_LONG_EXP_SHIFT_REG : Nat := 0x3100
def IMX708_REG_EXPOSURE : Nat := 0x0202
def IMX708_EXPOSURE_OFFSET : Nat := 48
def IMX708_EXPOSURE_DEFAULT : Nat := 0x640
def IMX708_EXPOSURE_STEP : Nat := 1
def IMX708_EXPOSURE_MIN : Nat := 1
def IMX708_EXPOSURE_MAX : Nat := IMX708_FRAME_LENGTH_MAX - IMX708_EXPOSURE_OFFSET
def IMX708_REG_ANALOG_GAIN : Nat := 0x0204
def IMX708_ANA_GAIN_MIN : Nat := 112
def IMX708_ANA_GAIN_MAX : Nat := 960
def IMX708_ANA_GAIN_DEFAULT : Nat := IMX708_ANA_GAIN_MIN
def IMX708_REG_DIGITAL_GAIN : Nat := 0x020e
def IMX708_DGTL_GAIN_MIN : Nat := 0x0100
def IMX708_DGTL_GAIN_MAX : Nat := 0xffff
def IMX708_DGTL_GAIN_DEFAULT : Nat := 0x0100
def IMX708_REG_TEST_PATTERN : Nat := 0x0600
def IMX708_REG_TEST_PATTERN_R : Nat := 0x0602
def IMX708_REG_TEST_PATTERN_GR : Nat := 0x0604
def IMX708_REG_TEST_PATTERN_B : Nat := 0x0606
def IMX708_REG_TEST_PATTERN_GB : Nat := 0x0608
def IMX708_TEST_PATTERN_COLOUR_MAX : Nat := 0x0fff
def IMX708_REG_BASE_SPC_GAINS_L : Nat := 0x7b10
def IMX708_REG_BASE_SPC_GAINS_R : Nat := 0x7c00
def IMX708_INITIAL_PIXEL_RATE : Nat := 590000000

/-- C errno values used by the driver (returned negated, as in the source). -/
def EINVAL : Int := 22

def EIO_errno : Int := 5

/-- Value of MEDIA_BUS_FMT_SRGGB10_1X10 from the external media-bus header. -/
def MEDIA_BUS_FMT_SRGGB10_1X10 : Nat := 0x300f

/-- Value of NO_HDR from the external rk-camera-module header. -/
def NO_HDR : Nat := 0

/-- Value of HDR_X3 from the external rk-camera-module header. -/
def HDR_X3 : Nat := 6

/-- Default PDAF pixel correction gains, row 0 of `pdaf_gains`. -/
def pdaf_gains_l : List Nat := [0x4c, 0x4c, 0x4c, 0x46, 0x3e, 0x38, 0x35, 0x35, 0x35]

/-- Default PDAF pixel correction gains, row 1 of `pdaf_gains`. -/
def pdaf_gains_r : List Nat := [0x35, 0x35, 0x35, 0x38, 0x3e, 0x46, 0x4c, 0x4c, 0x4c]

/-- Menu-index to register-value mapping `imx708_test_pattern_val`. -/
def imx708_test_pattern_val : List Nat := [0, 2, 1, 3, 4]
-- 2 entries, from the source array of the same name
def link_450Mhz_regs : List (Nat × Nat) := [
  (0x030E, 0x01), (0x030F, 0x2c)]

-- 2 entries, from the source array of the same name
def link_447Mhz_regs : List (Nat × Nat) := [
  (0x030E, 0x01), (0x030F, 0x2a)]

-- 2 entries, from the source array of the same name
def link_453Mhz_regs : List (Nat × Nat) := [
  (0x030E, 0x01), (0x030F, 0x2e)]

-- 48 entries, from the source array of the same name
def mode_common_regs : List (Nat × Nat) := [
  (0x0100, 0x00), (0x0136, 0x18), (0x0137, 0x00), (0x33F0, 0x02), (0x33F1, 0x05), (0x3062, 0x00),
  (0x3063, 0x12), (0x3068, 0x00), (0x3069, 0x12), (0x306A, 0x00), (0x306B, 0x30), (0x3076, 0x00),
  (0x3077, 0x30), (0x3078, 0x00), (0x3079, 0x30), (0x5E54, 0x0C), (0x6E44, 0x00), (0xB0B6, 0x01),
  (0xE829, 0x00), (0xF001, 0x08), (0xF003, 0x08), (0xF00D, 0x10), (0xF00F, 0x10), (0xF031, 0x08),
  (0xF033, 0x08), (0xF03D, 0x10), (0xF03F, 0x10), (0x0112, 0x0A), (0x0113, 0x0A), (0x0114, 0x01),
  (0x0B8E, 0x01), (0x0B8F, 0x00), (0x0B94, 0x01), (0x0B95, 0x00), (0x3400, 0x01), (0x3478, 0x01),
  (0x3479, 0x1c), (0x3091, 0x01), (0x3092, 0x00), (0x3419, 0x00), (0xBCF1, 0x02), (0x3094, 0x01),
  (0x3095, 0x01), (0x3362, 0x00), (0x3363, 0x00), (0x3364, 0x00), (0x3365, 0x00), (0x0138, 0x01)]

-- 93 entries, from the source array of the same name
def mode_4608x2592_regs : List (Nat × Nat) := [
  (0x0342, 0x3D), (0x0343, 0x20), (0x0340, 0x0A), (0x0341, 0x59), (0x0344, 0x00), (0x0345, 0x00),
  (0x0346, 0x00), (0x0347, 0x00), (0x0348, 0x11), (0x0349, 0xFF), (0x034A, 0x0A), (0x034B, 0x1F),
  (0x0220, 0x62), (0x0222, 0x01), (0x0900, 0x00), (0x0901, 0x11), (0x0902, 0x0A), (0x3200, 0x01),
  (0x3201, 0x01), (0x32D5, 0x01), (0x32D6, 0x00), (0x32DB, 0x01), (0x32DF, 0x00), (0x350C, 0x00),
  (0x350D, 0x00), (0x0408, 0x00), (0x0409, 0x00), (0x040A, 0x00), (0x040B, 0x00), (0x040C, 0x12),
  (0x040D, 0x00), (0x040E, 0x0A), (0x040F, 0x20), (0x034C, 0x12), (0x034D, 0x00), (0x034E, 0x0A),
  (0x034F, 0x20), (0x0301, 0x05), (0x0303, 0x02), (0x0305, 0x02), (0x0306, 0x00), (0x0307, 0x7C),
  (0x030B, 0x02), (0x030D, 0x04), (0x0310, 0x01), (0x3CA0, 0x00), (0x3CA1, 0x64), (0x3CA4, 0x00),
  (0x3CA5, 0x00), (0x3CA6, 0x00), (0x3CA7, 0x00), (0x3CAA, 0x00), (0x3CAB, 0x00), (0x3CB8, 0x00),
  (0x3CB9, 0x08), (0x3CBA, 0x00), (0x3CBB, 0x00), (0x3CBC, 0x00), (0x3CBD, 0x3C), (0x3CBE, 0x00),
  (0x3CBF, 0x00), (0x0202, 0x0A), (0x0203, 0x29), (0x0224, 0x01), (0x0225, 0xF4), (0x3116, 0x01),
  (0x3117, 0xF4), (0x0204, 0x00), (0x0205, 0x00), (0x0216, 0x00), (0x0217, 0x00), (0x0218, 0x01),
  (0x0219, 0x00), (0x020E, 0x01), (0x020F, 0x00), (0x3118, 0x00), (0x3119, 0x00), (0x311A, 0x01),
  (0x311B, 0x00), (0x341a, 0x00), (0x341b, 0x00), (0x341c, 0x00), (0x341d, 0x00), (0x341e, 0x01),
  (0x341f, 0x20), (0x3420, 0x00), (0x3421, 0xd8), (0xC428, 0x00), (0xC429, 0x04), (0x3366, 0x00),
  (0x3367, 0x00), (0x3368, 0x00), (0x3369, 0x00)]

-- 91 entries, from the source array of the same name
def mode_2x2binned_regs : List (Nat × Nat) := [
  (0x0342, 0x1E), (0x0343, 0x90), (0x0340, 0x05), (0x0341, 0x38), (0x0344, 0x00), (0x0345, 0x00),
  (0x0346, 0x00), (0x0347, 0x00), (0x0348, 0x11), (0x0349, 0xFF), (0x034A, 0x0A), (0x034B, 0x1F),
  (0x0220, 0x62), (0x0222, 0x01), (0x0900, 0x01), (0x0901, 0x22), (0x0902, 0x08), (0x3200, 0x41),
  (0x3201, 0x41), (0x32D5, 0x00), (0x32D6, 0x00), (0x32DB, 0x01), (0x32DF, 0x00), (0x350C, 0x00),
  (0x350D, 0x00), (0x0408, 0x00), (0x0409, 0x00), (0x040A, 0x00), (0x040B, 0x00), (0x040C, 0x09),
  (0x040D, 0x00), (0x040E, 0x05), (0x040F, 0x10), (0x034C, 0x09), (0x034D, 0x00), (0x034E, 0x05),
  (0x034F, 0x10), (0x0301, 0x05), (0x0303, 0x02), (0x0305, 0x02), (0x0306, 0x00), (0x0307, 0x7A),
  (0x030B, 0x02), (0x030D, 0x04), (0x0310, 0x01), (0x3CA0, 0x00), (0x3CA1, 0x3C), (0x3CA4, 0x00),
  (0x3CA5, 0x3C), (0x3CA6, 0x00), (0x3CA7, 0x00), (0x3CAA, 0x00), (0x3CAB, 0x00), (0x3CB8, 0x00),
  (0x3CB9, 0x1C), (0x3CBA, 0x00), (0x3CBB, 0x08), (0x3CBC, 0x00), (0x3CBD, 0x1E), (0x3CBE, 0x00),
  (0x3CBF, 0x0A), (0x0202, 0x05), (0x0203, 0x08), (0x0224, 0x01), (0x0225, 0xF4), (0x3116, 0x01),
  (0x3117, 0xF4), (0x0204, 0x00), (0x0205, 0x70), (0x0216, 0x00), (0x0217, 0x70), (0x0218, 0x01),
  (0x0219, 0x00), (0x020E, 0x01), (0x020F, 0x00), (0x3118, 0x00), (0x3119, 0x70), (0x311A, 0x01),
  (0x311B, 0x00), (0x341a, 0x00), (0x341b, 0x00), (0x341c, 0x00), (0x341d, 0x00), (0x341e, 0x00),
  (0x341f, 0x90), (0x3420, 0x00), (0x3421, 0x6c), (0x3366, 0x07), (0x3367, 0x80), (0x3368, 0x04),
  (0x3369, 0x38)]

-- 91 entries, from the source array of the same name
def mode_2x2binned_720p_regs : List (Nat × Nat) := [
  (0x0342, 0x14), (0x0343, 0x60), (0x0340, 0x04), (0x0341, 0xB6), (0x0344, 0x03), (0x0345, 0x00),
  (0x0346, 0x01), (0x0347, 0xB0), (0x0348, 0x0E), (0x0349, 0xFF), (0x034A, 0x08), (0x034B, 0x6F),
  (0x0220, 0x62), (0x0222, 0x01), (0x0900, 0x01), (0x0901, 0x22), (0x0902, 0x08), (0x3200, 0x41),
  (0x3201, 0x41), (0x32D5, 0x00), (0x32D6, 0x00), (0x32DB, 0x01), (0x32DF, 0x01), (0x350C, 0x00),
  (0x350D, 0x00), (0x0408, 0x00), (0x0409, 0x00), (0x040A, 0x00), (0x040B, 0x00), (0x040C, 0x06),
  (0x040D, 0x00), (0x040E, 0x03), (0x040F, 0x60), (0x034C, 0x06), (0x034D, 0x00), (0x034E, 0x03),
  (0x034F, 0x60), (0x0301, 0x05), (0x0303, 0x02), (0x0305, 0x02), (0x0306, 0x00), (0x0307, 0x76),
  (0x030B, 0x02), (0x030D, 0x04), (0x0310, 0x01), (0x3CA0, 0x00), (0x3CA1, 0x3C), (0x3CA4, 0x01),
  (0x3CA5, 0x5E), (0x3CA6, 0x00), (0x3CA7, 0x00), (0x3CAA, 0x00), (0x3CAB, 0x00), (0x3CB8, 0x00),
  (0x3CB9, 0x0C), (0x3CBA, 0x00), (0x3CBB, 0x04), (0x3CBC, 0x00), (0x3CBD, 0x1E), (0x3CBE, 0x00),
  (0x3CBF, 0x05), (0x0202, 0x04), (0x0203, 0x86), (0x0224, 0x01), (0x0225, 0xF4), (0x3116, 0x01),
  (0x3117, 0xF4), (0x0204, 0x00), (0x0205, 0x70), (0x0216, 0x00), (0x0217, 0x70), (0x0218, 0x01),
  (0x0219, 0x00), (0x020E, 0x01), (0x020F, 0x00), (0x3118, 0x00), (0x3119, 0x70), (0x311A, 0x01),
  (0x311B, 0x00), (0x341a, 0x00), (0x341b, 0x00), (0x341c, 0x00), (0x341d, 0x00), (0x341e, 0x00),
  (0x341f, 0x60), (0x3420, 0x00), (0x3421, 0x48), (0x3366, 0x00), (0x3367, 0x00), (0x3368, 0x00),
  (0x3369, 0x00)]

-- 93 entries, from the source array of the same name (the 0x0222 entry is the source line (0x0222, IMX708_HDR_EXPOSURE_RATIO) with ratio 4)
def mode_hdr_regs : List (Nat × Nat) := [
  (0x0342, 0x14), (0x0343, 0x60), (0x0340, 0x0A), (0x0341, 0x5B), (0x0344, 0x00), (0x0345, 0x00),
  (0x0346, 0x00), (0x0347, 0x00), (0x0348, 0x11), (0x0349, 0xFF), (0x034A, 0x0A), (0x034B, 0x1F),
  (0x0220, 0x01), (0x0222, 4), (0x0900, 0x00), (0x0901, 0x11), (0x0902, 0x0A), (0x3200, 0x01),
  (0x3201, 0x01), (0x32D5, 0x00), (0x32D6, 0x00), (0x32DB, 0x01), (0x32DF, 0x00), (0x350C, 0x00),
  (0x350D, 0x00), (0x0408, 0x00), (0x0409, 0x00), (0x040A, 0x00), (0x040B, 0x00), (0x040C, 0x09),
  (0x040D, 0x00), (0x040E, 0x05), (0x040F, 0x10), (0x034C, 0x09), (0x034D, 0x00), (0x034E, 0x05),
  (0x034F, 0x10), (0x0301, 0x05), (0x0303, 0x02), (0x0305, 0x02), (0x0306, 0x00), (0x0307, 0xA2),
  (0x030B, 0x02), (0x030D, 0x04), (0x0310, 0x01), (0x3CA0, 0x00), (0x3CA1, 0x00), (0x3CA4, 0x00),
  (0x3CA5, 0x00), (0x3CA6, 0x00), (0x3CA7, 0x28), (0x3CAA, 0x00), (0x3CAB, 0x00), (0x3CB8, 0x00),
  (0x3CB9, 0x30), (0x3CBA, 0x00), (0x3CBB, 0x00), (0x3CBC, 0x00), (0x3CBD, 0x32), (0x3CBE, 0x00),
  (0x3CBF, 0x00), (0x0202, 0x0A), (0x0203, 0x2B), (0x0224, 0x0A), (0x0225, 0x2B), (0x3116, 0x0A),
  (0x3117, 0x2B), (0x0204, 0x00), (0x0205, 0x00), (0x0216, 0x00), (0x0217, 0x00), (0x0218, 0x01),
  (0x0219, 0x00), (0x020E, 0x01), (0x020F, 0x00), (0x3118, 0x00), (0x3119, 0x00), (0x311A, 0x01),
  (0x311B, 0x00), (0x341a, 0x00), (0x341b, 0x00), (0x341c, 0x00), (0x341d, 0x00), (0x341e, 0x00),
  (0x341f, 0x90), (0x3420, 0x00), (0x3421, 0x6c), (0x3360, 0x01), (0x3361, 0x01), (0x3366, 0x07),
  (0x3367, 0x80), (0x3368, 0x04), (0x3369, 0x38)]

/-! ## Mode catalog (struct imx708_mode, supported_modes) -/

/-- Translation of `struct imx708_mode`.  `max_fps` is carried as a
numerator/denominator pair; the crop rectangle is flattened. -/
structure ImxMode where
  bus_fmt : Nat
  width : Nat
  height : Nat
  fps_numerator : Nat
  fps_denominator : Nat
  line_length_pix : Nat
  crop_left : Nat
  crop_top : Nat
  crop_width : Nat
  crop_height : Nat
  vblank_min : Nat
  vblank_default : Nat
  reg_list : List (Nat × Nat)
  pixel_rate : Nat
  exposure_lines_min : Nat
  exposure_lines_step : Nat
  hdr_mode : Nat
deriving Repr, DecidableEq

/-- Entry 0 of `supported_modes`: full resolution. -/
def mode_full : ImxMode where
  bus_fmt := MEDIA_BUS_FMT_SRGGB10_1X10
  width := 4608
  height := 2592
  fps_numerator := 10000
  fps_denominator := 140000
  line_length_pix := 0x3d20
  crop_left := 16
  crop_top := 24
  crop_width := 4608
  crop_height := 2592
  vblank_min := 58
  vblank_default := 58
  reg_list := mode_4608x2592_regs
  pixel_rate := 595200000
  exposure_lines_min := 8
  exposure_lines_step := 1
  hdr_mode := NO_HDR

/-- Entry 1 of `supported_modes`: regular 2x2 binned. -/
def mode_binned : ImxMode where
  bus_fmt := MEDIA_BUS_FMT_SRGGB10_1X10
  width := 1920
  height := 1080
  fps_numerator := 10000
  fps_denominator := 660000
  line_length_pix := 0x1e90
  crop_left := 16
  crop_top := 24
  crop_width := 4608
  crop_height := 2592
  vblank_min := 40
  vblank_default := 1198
  reg_list := mode_2x2binned_regs
  pixel_rate := 585600000
  exposure_lines_min := 4
  exposure_lines_step := 2
  hdr_mode := NO_HDR

/-- Entry 2 of `supported_modes`: the single HDR mode, 2x2 downscaled.
`exposure_lines_min = 8 * 4 * 4` and `exposure_lines_step = 2 * 4 * 4`
with 4 the HDR exposure quotient constant. -/
def mode_hdr : ImxMode where
  bus_fmt := MEDIA_BUS_FMT_SRGGB10_1X10
  width := 1920
  height := 1080
  fps_numerator := 10000
  fps_denominator := 310000
  line_length_pix := 0x1460
  crop_left := 16
  crop_top := 24
  crop_width := 4608
  crop_height := 2592
  vblank_min := 3673
  vblank_default := 3673
  reg_list := mode_hdr_regs
  pixel_rate := 777600000
  exposure_lines_min := 128
  exposure_lines_step := 32
  hdr_mode := HDR_X3

/-- Entry 3 of `supported_modes`: 2x2 binned and cropped for 720p. -/
def mode_binned_720p : ImxMode where
  bus_fmt := MEDIA_BUS_FMT_SRGGB10_1X10
  width := 1536
  height := 864
  fps_numerator := 10000
  fps_denominator := 1200000
  line_length_pix := 0x1460
  crop_left := 784
  crop_top := 456
  crop_width := 3072
  crop_height := 1728
  vblank_min := 40
  vblank_default := 2755
  reg_list := mode_2x2binned_720p_regs
  pixel_rate := 566400000
  exposure_lines_min := 4
  exposure_lines_step := 2
  hdr_mode := NO_HDR

/-- The static mode catalog `supported_modes`. -/
def supported_modes : List ImxMode := [mode_full, mode_binned, mode_hdr, mode_binned_720p]

/-- Per-index register lists `link_freq_regs`. -/
def link_freq_regs : List (List (Nat × Nat)) :=
  [link_450Mhz_regs, link_447Mhz_regs, link_453Mhz_regs]

/-! ## Transport layer -/

/-- One attempted bus write: address, byte length, and the effective value
actually placed on the bus (the low `8 * len` bits of the argument, exactly
what `imx708_write_reg` transmits). -/
structure WriteOp where
  addr : Nat
  len : Nat
  val : Nat
deriving Repr, DecidableEq

/-- Oracle for everything outside the driver: the two-wire transport and
runtime-PM.  `wr`/`rd` decide the outcome of each bus transaction;
`pm_get_ret` is the `pm_runtime_get_sync` return value; `power_in_use`
models a non-zero `pm_runtime_get_if_in_use`; `ctrl_setup_ret` is the
result of the external framework call `__v4l2_ctrl_handler_setup`. -/
structure Env where
  wr : Nat → Nat → Nat → Bool
  rd : Nat → Nat → Option Nat
  pm_get_ret : Int
  power_in_use : Bool
  ctrl_setup_ret : Int

/-- C conversion of a signed value to `unsigned int` (reduction mod 2^32). -/
def toU32 (v : Int) : Nat := (v % (2 ^ 32 : Int)).toNat

/-- Translation of `imx708_write_reg`: refuse lengths above 4, then transmit
the low `8 * len` bits of `val`; the oracle decides success. -/
def imx708_write_reg (env : Env) (reg len val : Nat) : Int × List WriteOp :=
  if 4 < len then (-EINVAL, [])
  else
    let w : WriteOp := ⟨reg, len, val % 2 ^ (8 * len)⟩
    if env.wr reg len (val % 2 ^ (8 * len)) then (0, [w]) else (-EIO_errno, [w])

/-- Translation of `imx708_read_reg`: refuse lengths above 4; a failed
transfer yields `-EIO_errno` (the output variable is then never consulted by the
callers, modelled here as 0). -/
def imx708_read_reg (env : Env) (reg len : Nat) : Int × Nat :=
  if 4 < len then (-EINVAL, 0)
  else
    match env.rd reg len with
    | some v => (0, v % 2 ^ (8 * len))
    | none => (-EIO_errno, 0)

/-- Translation of `imx708_write_regs`: apply each (address, value) pair in
order with one-byte writes, aborting on the first failure. -/
def imx708_write_regs (env : Env) (regs : List (Nat × Nat)) : Int × List WriteOp :=
  match regs with
  | [] => (0, [])
  | (a, v) :: rest =>
    let (r, w) := imx708_write_reg env a 1 v
    if r ≠ 0 then (r, w)
    else
      let (r2, w2) := imx708_write_regs env rest
      (r2, w ++ w2)

/-! ## Device state -/

/-- The observable part of a `struct v4l2_ctrl`: its numeric range fields,
its current value and the grabbed flag.  These are the only fields of the
external control objects the driver reads or writes. -/
structure CtrlRange where
  minimum : Int
  maximum : Int
  step : Int
  dflt : Int
  val : Int
  grabbed : Bool
deriving Repr, DecidableEq

/-- External V4L2 framework helper `__v4l2_ctrl_modify_range`: replaces the
range fields of a control with the requested minimum, maximum, step and
default. -/
def v4l2_ctrl_modify_range (c : CtrlRange) (mn mx st df : Int) : CtrlRange :=
  { c with minimum := mn, maximum := mx, step := st, dflt := df }

/-- Mutable driver state (`struct imx708`), restricted to the fields the
control logic reads or writes.  `cur_mode` is the index of the active
entry of `supported_modes`; `pm_usage` is the runtime-PM usage count as
observed through the get/put calls the driver issues. -/
structure Dev where
  cur_mode : Nat
  streaming : Bool
  common_regs_written : Bool
  long_exp_shift : Nat
  link_freq_idx : Nat
  pm_usage : Int
  pixel_rate : CtrlRange
  vblank : CtrlRange
  hblank : CtrlRange
  exposure : CtrlRange
  hflip : CtrlRange
  vflip : CtrlRange
  ana_gain_val : Int
  dig_gain_val : Int
  test_pattern : Int
  tp_red : Int
  tp_greenr : Int
  tp_blue : Int
  tp_greenb : Int
deriving Repr, DecidableEq

/-- Dereference of the `cur_mode` pointer.  In every reachable state the
index is in range; out-of-range indices fall back to the first entry. -/
def curMode (s : Dev) : ImxMode := supported_modes.getD s.cur_mode mode_full

/-! ## Framing and exposure limit model -/

/-- Translation of `imx708_adjust_exposure_range`. -/
def imx708_adjust_exposure_range (s : Dev) : Dev :=
  let exposure_max : Int := (curMode s).height + s.vblank.val - IMX708_EXPOSURE_OFFSET
  let exposure_def : Int := min exposure_max s.exposure.val
  { s with exposure := (v4l2_ctrl_modify_range s.exposure s.exposure.minimum
      exposure_max s.exposure.step exposure_def) }

/-- Translation of `imx708_set_exposure`: clamp up to the mode's minimum,
round down to the mode's step, then right-shift by the long-exposure shift
before the 16-bit register write. -/
def imx708_set_exposure (env : Env) (s : Dev) (val : Nat) : Int × List WriteOp :=
  let val1 := max val (curMode s).exposure_lines_min
  let val2 := val1 - val1 % (curMode s).exposure_lines_step
  imx708_write_reg env IMX708_REG_EXPOSURE 2 (val2 >>> s.long_exp_shift)

/-- Translation of `imx708_set_analogue_gain`. -/
def imx708_set_analogue_gain (env : Env) (val : Nat) : Int × List WriteOp :=
  imx708_write_reg env IMX708_REG_ANALOG_GAIN 2 val

/-- The halving loop of `imx708_set_frame_length`:
`while (val > IMX708_FRAME_LENGTH_MAX) { shift++; val >>= 1; }`. -/
def imx708_fl_loop (shift val : Nat) : Nat × Nat :=
  if h : IMX708_FRAME_LENGTH_MAX < val then imx708_fl_loop (shift + 1) (val / 2)
  else (shift, val)
termination_by val
decreasing_by
  simp only [IMX708_FRAME_LENGTH_MAX] at h
  omega

/-- Translation of `imx708_set_frame_length`: run the halving loop from a
zero shift, store the shift count, then write the 16-bit frame length and
the 8-bit shift registers. -/
def imx708_set_frame_length (env : Env) (s : Dev) (val : Nat) : Int × Dev × List WriteOp :=
  let p := imx708_fl_loop 0 val
  let s1 := { s with long_exp_shift := p.1 }
  let (r1, w1) := imx708_write_reg env IMX708_REG_FRAME_LENGTH 2 p.2
  if r1 ≠ 0 then (r1, s1, w1)
  else
    let (r2, w2) := imx708_write_reg env IMX708_LONG_EXP_SHIFT_REG 1 p.1
    (r2, s1, w1 ++ w2)

/-- Translation of `imx708_set_framing_limits`. -/
def imx708_set_framing_limits (s : Dev) : Dev :=
  let m := curMode s
  let s1 := { s with pixel_rate :=
    (v4l2_ctrl_modify_range s.pixel_rate m.pixel_rate m.pixel_rate 1 m.pixel_rate) }
  let s2 := { s1 with vblank :=
    (v4l2_ctrl_modify_range s1.vblank m.vblank_min
      (((1 <<< IMX708_LONG_EXP_SHIFT_MAX) * IMX708_FRAME_LENGTH_MAX : Int) - m.height)
      1 m.vblank_default) }
  let hblank : Int := (m.line_length_pix : Int) - m.width
  { s2 with hblank := v4l2_ctrl_modify_range s2.hblank hblank hblank 1 hblank }

/-! ## Control application pipeline (imx708_set_ctrl) -/

/-- Control identifiers dispatched by `imx708_set_ctrl`; `unknown` stands
for every id outside the driver's switch. -/
inductive CtrlId where
  | analogue_gain
  | exposure
  | digital_gain
  | test_pattern
  | test_pattern_red
  | test_pattern_greenr
  | test_pattern_blue
  | test_pattern_greenb
  | hflip
  | vflip
  | vblank
  | unknown (code : Nat)
deriving Repr, DecidableEq

/-- Framework side of a control change: the new (already range-clamped)
value is stored in the control before the driver's `s_ctrl` hook runs;
an unknown id has no control object, so nothing is stored. -/
def ctrlStore (s : Dev) (id : CtrlId) (v : Int) : Dev :=
  match id with
  | .analogue_gain => { s with ana_gain_val := v }
  | .exposure => { s with exposure := { s.exposure with val := v } }
  | .digital_gain => { s with dig_gain_val := v }
  | .test_pattern => { s with test_pattern := v }
  | .test_pattern_red => { s with tp_red := v }
  | .test_pattern_greenr => { s with tp_greenr := v }
  | .test_pattern_blue => { s with tp_blue := v }
  | .test_pattern_greenb => { s with tp_greenb := v }
  | .hflip => { s with hflip := { s.hflip with val := v } }
  | .vflip => { s with vflip := { s.vflip with val := v } }
  | .vblank => { s with vblank := { s.vblank with val := v } }
  | .unknown _ => s

/-- Translation of `imx708_set_ctrl`.  The range/derivation phase always
runs; hardware writes happen only when power is in active use, in which
case `pm_runtime_get_if_in_use` takes a usage reference that is dropped by
the trailing `pm_runtime_put`.  The `imx708_set_analogue_gain` return code
is discarded exactly as in the source. -/
def imx708_set_ctrl (env : Env) (s0 : Dev) (id : CtrlId) (v : Int) :
    Int × Dev × List WriteOp :=
  let sa := ctrlStore s0 id v
  let sb := match id with
    | .vblank => imx708_adjust_exposure_range sa
    | _ => sa
  if env.power_in_use = false then (0, sb, [])
  else
    let sc := { sb with pm_usage := sb.pm_usage + 1 }
    let step : Int × Dev × List WriteOp :=
      match id with
      | .analogue_gain =>
        let p := imx708_set_analogue_gain env (toU32 v)
        (0, sc, p.2)
      | .exposure =>
        let p := imx708_set_exposure env sc (toU32 v)
        (p.1, sc, p.2)
      | .digital_gain =>
        let p := imx708_write_reg env IMX708_REG_DIGITAL_GAIN 2 (toU32 v)
        (p.1, sc, p.2)
      | .test_pattern =>
        let p := imx708_write_reg env IMX708_REG_TEST_PATTERN 2
          (imx708_test_pattern_val.getD (toU32 v) 0)
        (p.1, sc, p.2)
      | .test_pattern_red =>
        let p := imx708_write_reg env IMX708_REG_TEST_PATTERN_R 2 (toU32 v)
        (p.1, sc, p.2)
      | .test_pattern_greenr =>
        let p := imx708_write_reg env IMX708_REG_TEST_PATTERN_GR 2 (toU32 v)
        (p.1, sc, p.2)
      | .test_pattern_blue =>
        let p := imx708_write_reg env IMX708_REG_TEST_PATTERN_B 2 (toU32 v)
        (p.1, sc, p.2)
      | .test_pattern_greenb =>
        let p := imx708_write_reg env IMX708_REG_TEST_PATTERN_GB 2 (toU32 v)
        (p.1, sc, p.2)
      | .hflip =>
        let p := imx708_write_reg env IMX708_REG_ORIENTATION 1
          (toU32 sc.hflip.val ||| (toU32 sc.vflip.val) <<< 1)
        (p.1, sc, p.2)
      | .vflip =>
        let p := imx708_write_reg env IMX708_REG_ORIENTATION 1
          (toU32 sc.hflip.val ||| (toU32 sc.vflip.val) <<< 1)
        (p.1, sc, p.2)
      | .vblank =>
        imx708_set_frame_length env sc (toU32 (((curMode sc).height : Int) + v))
      | .unknown _ =>
        (-EINVAL, sc, [])
    (step.1, { step.2.1 with pm_usage := step.2.1.pm_usage - 1 }, step.2.2)

/-! ## Mode negotiation (imx708_find_best_fit) -/

/-- Reduction of an unsigned 32-bit value. -/
def u32 (n : Nat) : Nat := n % 2 ^ 32

/-- Unsigned 32-bit subtraction `a - b` (wrapping). -/
def u32sub (a b : Nat) : Nat := (u32 a + 2 ^ 32 - u32 b) % 2 ^ 32

/-- Reinterpretation of an unsigned 32-bit value as a signed int. -/
def s32ofU32 (n : Nat) : Int := if n < 2 ^ 31 then (n : Int) else (n : Int) - 2 ^ 32

/-- C `abs()` on int. -/
def c_abs (i : Int) : Int := if i < 0 then -i else i

/-- Translation of `imx708_get_reso_dist`: both subtractions are performed
on unsigned 32-bit operands and only then passed through int `abs()`. -/
def imx708_get_reso_dist (m : ImxMode) (w h : Nat) : Int :=
  c_abs (s32ofU32 (u32sub m.width w)) + c_abs (s32ofU32 (u32sub m.height h))

/-- Loop of `imx708_find_best_fit` over the indexed catalog; the
accumulator is `(cur_best_fit, cur_best_fit_dist)` starting at `(0, -1)`. -/
def imx708_find_best_fit_aux (code w h : Nat) :
    List (Nat × ImxMode) → Nat × Int → Nat × Int
  | [], best => best
  | (i, m) :: rest, (bf, bd) =>
    let dist := imx708_get_reso_dist m w h
    if (bd = -1 ∨ dist < bd) ∧ m.bus_fmt = code then
      imx708_find_best_fit_aux code w h rest (i, dist)
    else
      imx708_find_best_fit_aux code w h rest (bf, bd)

/-- Translation of `imx708_find_best_fit`: returns the index of the
selected catalog entry (the source returns `&supported_modes[cur_best_fit]`,
which is `&supported_modes[0]` when no entry matched the format code). -/
def imx708_find_best_fit (code w h : Nat) : Nat :=
  (imx708_find_best_fit_aux code w h supported_modes.enum (0, -1)).1

/-! ## Streaming state machine -/

/-- The 54-entry cyclic register list written by one PDAF calibration loop
in `imx708_start_streaming`: `base + i ↦ tbl[i % 9]` for `i < 54`. -/
def imx708_spc_regs (base : Nat) (tbl : List Nat) : List (Nat × Nat) :=
  (List.range 54).map fun i => (base + i, tbl.getD (i % 9) 0)

/-- The two PDAF gain-table loops of `imx708_start_streaming`; the second
loop runs only while the first one has not failed. -/
def imx708_apply_spc (env : Env) : Int × List WriteOp :=
  let (r1, w1) := imx708_write_regs env (imx708_spc_regs IMX708_REG_BASE_SPC_GAINS_L pdaf_gains_l)
  if r1 ≠ 0 then (r1, w1)
  else
    let (r2, w2) := imx708_write_regs env (imx708_spc_regs IMX708_REG_BASE_SPC_GAINS_R pdaf_gains_r)
    (r2, w1 ++ w2)

/-- Tail of `imx708_start_streaming` after the common-register block: mode
register list, link-frequency registers, control replay, stream-on write.
The control replay `__v4l2_ctrl_handler_setup` is an external framework
call that re-applies every current control value through
`imx708_set_ctrl`; it never touches the streaming flag, the usage count or
the grabbed flags, and is abstracted by its return code. -/
def imx708_start_streaming_tail (env : Env) (s : Dev) (tr : List WriteOp) :
    Int × Dev × List WriteOp :=
  let (r3, w3) := imx708_write_regs env (curMode s).reg_list
  if r3 ≠ 0 then (r3, s, tr ++ w3)
  else
    let (r4, w4) := imx708_write_regs env (link_freq_regs.getD s.link_freq_idx [])
    if r4 ≠ 0 then (r4, s, tr ++ w3 ++ w4)
    else
      if env.ctrl_setup_ret ≠ 0 then (env.ctrl_setup_ret, s, tr ++ w3 ++ w4)
      else
        let (r5, w5) := imx708_write_reg env IMX708_REG_MODE_SELECT 1 IMX708_MODE_STREAMING
        (r5, s, tr ++ w3 ++ w4 ++ w5)

/-- Translation of `imx708_start_streaming`.  When the common registers
have not been written since the last power-down: write them, read the
calibration sentinel, apply the PDAF patch only when the sentinel equals
0x40, and on overall success latch `common_regs_written`; then proceed
with the tail pipeline. -/
def imx708_start_streaming (env : Env) (s : Dev) : Int × Dev × List WriteOp :=
  if s.common_regs_written = false then
    let (r1, w1) := imx708_write_regs env mode_common_regs
    if r1 ≠ 0 then (r1, s, w1)
    else
      let (rr, v) := imx708_read_reg env IMX708_REG_BASE_SPC_GAINS_L 1
      let (r2, w2) := if rr = 0 ∧ v = 0x40 then imx708_apply_spc env else (rr, [])
      if r2 ≠ 0 then (r2, s, w1 ++ w2)
      else imx708_start_streaming_tail env { s with common_regs_written := true } (w1 ++ w2)
  else
    imx708_start_streaming_tail env s []

/-- Translation of `imx708_stop_streaming`: the stream-off write's failure
is only logged, never propagated. -/
def imx708_stop_streaming (env : Env) : List WriteOp :=
  (imx708_write_reg env IMX708_REG_MODE_SELECT 1 IMX708_MODE_STANDBY).2

/-- Translation of `imx708_set_stream`.  Re-entering the current state
returns 0 immediately.  Enabling takes a runtime-PM reference
(`pm_runtime_get_sync` bumps the usage count even on failure, hence the
`pm_runtime_put_noidle` on the error path), runs the start pipeline, and
only on full success sets the streaming flag and grabs the flip pair. -/
def imx708_set_stream (env : Env) (s : Dev) (enable : Bool) : Int × Dev × List WriteOp :=
  if s.streaming = enable then (0, s, [])
  else if enable then
    let s1 := { s with pm_usage := s.pm_usage + 1 }
    if env.pm_get_ret < 0 then
      (env.pm_get_ret, { s1 with pm_usage := s1.pm_usage - 1 }, [])
    else
      let (r, s2, tr) := imx708_start_streaming env s1
      if r ≠ 0 then (r, { s2 with pm_usage := s2.pm_usage - 1 }, tr)
      else
        (0, { s2 with streaming := true, vflip.grabbed := true, hflip.grabbed := true }, tr)
  else
    let tr := imx708_stop_streaming env
    let s1 :=
      { s with pm_usage := s.pm_usage - 1, streaming := false,
               vflip.grabbed := false, hflip.grabbed := false }
    (0, s1, tr)

/-- Translation of `imx708_power_off` restricted to the modelled state:
the GPIO/regulator/clock operations act on external resources; the only
state effect is clearing `common_regs_written`. -/
def imx708_power_off (s : Dev) : Dev :=
  { s with common_regs_written := false }

/-! ## Vendor ioctl: HDR mode override -/

/-- The RKMODULE_SET_HDR_CFG branch of `imx708_ioctl`: look up a catalog
entry with the current mode's resolution and the requested HDR variant;
on a hit commit it as the current mode and refresh the framing limits, on
a miss return `-EINVAL`.  The source performs no streaming-state check. -/
def imx708_set_hdr_cfg (s : Dev) (hdr : Nat) : Int × Dev :=
  let w := (curMode s).width
  let h := (curMode s).height
  match supported_modes.findIdx? (fun m => w == m.width && h == m.height && m.hdr_mode == hdr) with
  | some i => (0, imx708_set_framing_limits { s with cur_mode := i })
  | none => (-EINVAL, s)

/-! ## Attach-time initial state -/

/-- Control object as created by `v4l2_ctrl_new_std`: current value starts
at the default, not grabbed. -/
def initCtrl (mn mx st df : Int) : CtrlRange :=
  { minimum := mn, maximum := mx, step := st, dflt := df, val := df, grabbed := false }

/-- Probe-time mode selection: first catalog entry whose `hdr_mode` equals
the device-tree hint, falling back to entry 0. -/
def imx708_probe_mode (hdr_mode : Nat) : Nat :=
  (supported_modes.findIdx? (fun m => m.hdr_mode == hdr_mode)).getD 0

/-- Device state right after a successful probe: the structure is
zero-allocated (`streaming`, `common_regs_written`, `long_exp_shift` all
zero), controls are created by `imx708_init_controls` with the source's
initial ranges, and `imx708_set_framing_limits` then installs the
mode-specific limits. -/
def imx708_initial (hdr_mode link_idx : Nat) : Dev :=
  imx708_set_framing_limits
    { cur_mode := imx708_probe_mode hdr_mode
      streaming := false
      common_regs_written := false
      long_exp_shift := 0
      link_freq_idx := link_idx
      pm_usage := 0
      pixel_rate := initCtrl IMX708_INITIAL_PIXEL_RATE IMX708_INITIAL_PIXEL_RATE 1
        IMX708_INITIAL_PIXEL_RATE
      vblank := initCtrl 0 0xffff 1 0
      hblank := initCtrl 0 0xffff 1 0
      exposure := initCtrl IMX708_EXPOSURE_MIN IMX708_EXPOSURE_MAX IMX708_EXPOSURE_STEP
        IMX708_EXPOSURE_DEFAULT
      hflip := initCtrl 0 1 1 0
      vflip := initCtrl 0 1 1 0
      ana_gain_val := IMX708_ANA_GAIN_DEFAULT
      dig_gain_val := IMX708_DGTL_GAIN_DEFAULT
      test_pattern := 0
      tp_red := IMX708_TEST_PATTERN_COLOUR_MAX
      tp_greenr := IMX708_TEST_PATTERN_COLOUR_MAX
      tp_blue := IMX708_TEST_PATTERN_COLOUR_MAX
      tp_greenb := IMX708_TEST_PATTERN_COLOUR_MAX }

/-! ## Concrete environments and states used by the verification witnesses -/

/-- Oracle with a fully working bus, a matching calibration sentinel and
power in active use. -/
def env_ok : Env :=
  { wr := fun _ _ _ => true, rd := fun _ _ => some 0x40, pm_get_ret := 0,
    power_in_use := true, ctrl_setup_ret := 0 }

/-- Same bus, power not in active use. -/
def env_unpowered : Env :=
  { env_ok with power_in_use := false }

/-- Every bus write fails. -/
def env_deaf : Env :=
  { env_ok with wr := fun _ _ _ => false }

/-- Working bus whose calibration sentinel reads 0x00 instead of 0x40. -/
def env_wrong_sentinel : Env :=
  { env_ok with rd := fun _ _ => some 0x00 }

def env_patch_ok : Env := env_ok

/-- Power acquisition fails. -/
def env_pmfail : Env := { env_ok with pm_get_ret := -13 }

/-- Attach state with the default (non-HDR) probe mode. -/
def dev0 : Dev := imx708_initial NO_HDR 0

def dev_binned : Dev := { dev0 with cur_mode := 1 }

def dev_streaming : Dev := { dev0 with streaming := true }

/-- Streaming on the non-HDR 1920x1080 entry. -/
def dev_c8 : Dev := { dev0 with cur_mode := 1, streaming := true }

/-- The spec's distance metric: `|Δwidth| + |Δheight|` over the exact
(unwrapped) differences. -/
def absDist (m : ImxMode) (w h : Nat) : Nat :=
  ((m.width : Int) - w).natAbs + ((m.height : Int) - h).natAbs

/-! ## Helper lemmas -/

theorem toU32_ofNat (v : Nat) (h : v < 2 ^ 32) : toU32 (v : Int) = v := by
  simp only [toU32]
  omega

/-- Both exits of `imx708_set_frame_length` return the state with only the
long-exposure shift replaced by the loop result. -/
theorem imx708_set_frame_length_state (env : Env) (s : Dev) (val : Nat) :
    (imx708_set_frame_length env s val).2.1 =
      { s with long_exp_shift := (imx708_fl_loop 0 val).1 } := by
  simp only [imx708_set_frame_length]
  split <;> rfl

/-- Every exit of `imx708_start_streaming_tail` leaves the state unchanged. -/
theorem imx708_start_streaming_tail_state (env : Env) (s : Dev) (tr : List WriteOp) :
    (imx708_start_streaming_tail env s tr).2.1 = s := by
  simp only [imx708_start_streaming_tail]
  split
  · rfl
  · split
    · rfl
    · split
      · rfl
      · rfl

/-! ## C5: set-stream idempotence -/

/-- C5: re-entering the current streaming state is a no-op: when the
requested enable flag equals the current streaming flag, `imx708_set_stream`
performs no register writes, leaves the state unchanged and returns 0. -/
theorem imx708_set_stream_idempotent (env : Env) (s : Dev) (enable : Bool)
    (h : s.streaming = enable) :
    imx708_set_stream env s enable = (0, s, []) := by
  simp [imx708_set_stream, h]

/-- C5 witness: concrete instances of the idempotence theorem in both the
STANDBY and the STREAMING state. -/
theorem imx708_set_stream_idempotent_witness :
    imx708_set_stream env_ok dev0 false = (0, dev0, []) ∧
    imx708_set_stream env_ok dev_streaming true = (0, dev_streaming, []) :=
  ⟨imx708_set_stream_idempotent env_ok dev0 false (by decide),
   imx708_set_stream_idempotent env_ok dev_streaming true (by decide)⟩

/-! ## C2: vblank change recomputes the exposure range -/

/-- C2: for a vblank value within the active mode's legal range, applying
the VBLANK control recomputes the exposure maximum to exactly
`mode.height + vblank - 48` and sets the exposure default to the minimum of
the previous exposure value and the new maximum. -/
theorem imx708_vblank_adjusts_exposure_range (env : Env) (s : Dev) (v : Int)
    (hlo : ((curMode s).vblank_min : Int) ≤ v)
    (hhi : v ≤ (2 ^ 7 * 0xffff : Int) - (curMode s).height) :
    (imx708_set_ctrl env s .vblank v).2.1.exposure.maximum
        = ((curMode s).height : Int) + v - 48 ∧
    (imx708_set_ctrl env s .vblank v).2.1.exposure.dflt
        = min (((curMode s).height : Int) + v - 48) s.exposure.val := by
  simp only [imx708_set_ctrl, ctrlStore]
  cases hpu : env.power_in_use
  · simp [hpu, imx708_adjust_exposure_range, v4l2_ctrl_modify_range, curMode,
      IMX708_EXPOSURE_OFFSET]
  · simp [hpu, imx708_adjust_exposure_range, v4l2_ctrl_modify_range, curMode,
      IMX708_EXPOSURE_OFFSET, imx708_set_frame_length_state]

/-- C2 witness: spec scenario B, vblank = 1198 on the 1920x1080 binned mode
(height 1080): the exposure maximum becomes 1080 + 1198 - 48 = 2230, and
the default becomes min(2230, 0x640) = 1600. -/
theorem imx708_vblank_adjusts_exposure_range_witness :
    (imx708_set_ctrl env_ok dev_binned .vblank 1198).2.1.exposure.maximum = 2230 ∧
    (imx708_set_ctrl env_ok dev_binned .vblank 1198).2.1.exposure.dflt = 1600 := by
  have h := imx708_vblank_adjusts_exposure_range env_ok dev_binned 1198
    (by decide) (by decide)
  refine ⟨?_, ?_⟩
  · rw [h.1]; decide
  · rw [h.2]; decide

/-! ## C4: exposure value resolution -/

/-- C4: the value written to the 16-bit exposure register is obtained by
clamping the request up to `mode.exposure_lines_min`, rounding down to a
multiple of `mode.exposure_lines_step`, then right-shifting by the current
long-exposure shift (the register write keeps its low 16 bits). -/
theorem imx708_exposure_written_value (env : Env) (s : Dev) (v : Nat)
    (hp : env.power_in_use = true) (hv : v < 2 ^ 31) :
    (imx708_set_ctrl env s .exposure (v : Int)).2.2 =
      [⟨IMX708_REG_EXPOSURE, 2,
        ((max v (curMode s).exposure_lines_min
          - (max v (curMode s).exposure_lines_min) % (curMode s).exposure_lines_step)
          >>> s.long_exp_shift) % 2 ^ 16⟩] := by
  have hu : toU32 (v : Int) = v := toU32_ofNat v (by omega)
  simp only [imx708_set_ctrl, ctrlStore, hp]
  simp only [imx708_set_exposure, imx708_write_reg, hu, curMode]
  norm_num
  split <;> rfl

/-- C4 witness: on the HDR mode (min 128, step 32) with shift 1, a request
of 100 lines is clamped to 128, stays at 128 after rounding, and 64 is
written to the exposure register. -/
theorem imx708_exposure_written_value_witness :
    (imx708_set_ctrl env_ok { dev0 with cur_mode := 2, long_exp_shift := 1 }
        .exposure ((100 : Nat) : Int)).2.2 =
      [⟨IMX708_REG_EXPOSURE, 2, 64⟩] := by
  have h := imx708_exposure_written_value env_ok
    { dev0 with cur_mode := 2, long_exp_shift := 1 } 100 (by decide) (by decide)
  rw [h]
  decide

/-! ## C3: long-exposure shift encoding of the frame length -/

theorem imx708_fl_loop_low (shift val : Nat) (h : val ≤ 0xffff) :
    imx708_fl_loop shift val = (shift, val) := by
  rw [imx708_fl_loop, dif_neg]
  simp only [IMX708_FRAME_LENGTH_MAX, not_lt]
  omega

/-- Invariants of the halving loop: the final value fits in 16 bits, the
shift only grows, `value * 2 ^ added_shift` brackets the input from below
within one `2 ^ added_shift` granule, and whenever the loop iterated at
least once the final value is at least 0x8000. -/
theorem imx708_fl_loop_spec (val : Nat) : ∀ shift : Nat,
    (imx708_fl_loop shift val).2 ≤ 0xffff ∧
    shift ≤ (imx708_fl_loop shift val).1 ∧
    (imx708_fl_loop shift val).2 * 2 ^ ((imx708_fl_loop shift val).1 - shift) ≤ val ∧
    val < ((imx708_fl_loop shift val).2 + 1) * 2 ^ ((imx708_fl_loop shift val).1 - shift) ∧
    (shift < (imx708_fl_loop shift val).1 → 0x8000 ≤ (imx708_fl_loop shift val).2) := by
  induction val using Nat.strong_induction_on with
  | _ val ih =>
    intro shift
    by_cases h : 0xffff < val
    · have hv2 : val / 2 < val := by omega
      have hrec := ih (val / 2) hv2 (shift + 1)
      have heq : imx708_fl_loop shift val = imx708_fl_loop (shift + 1) (val / 2) := by
        rw [imx708_fl_loop, dif_pos]
        simp only [IMX708_FRAME_LENGTH_MAX]
        omega
      rw [heq]
      rw [heq] at *
      obtain ⟨h1, h2, h3, h4, h5⟩ := hrec
      set L := imx708_fl_loop (shift + 1) (val / 2) with hL
      have hp : L.1 - shift = (L.1 - (shift + 1)) + 1 := by omega
      refine ⟨h1, by omega, ?_, ?_, ?_⟩
      · rw [hp, pow_succ]
        calc L.2 * (2 ^ (L.1 - (shift + 1)) * 2)
            = 2 * (L.2 * 2 ^ (L.1 - (shift + 1))) := by ring
          _ ≤ 2 * (val / 2) := by omega
          _ ≤ val := by omega
      · rw [hp, pow_succ]
        calc val < 2 * (val / 2 + 1) := by omega
          _ ≤ 2 * ((L.2 + 1) * 2 ^ (L.1 - (shift + 1))) := by omega
          _ = (L.2 + 1) * (2 ^ (L.1 - (shift + 1)) * 2) := by ring
      · intro _
        rcases Nat.lt_or_ge (shift + 1) L.1 with hc | hc
        · exact h5 hc
        · have hL1 : L.1 = shift + 1 := by omega
          rw [hL1] at h3 h4
          simp only [Nat.sub_self, pow_zero, mul_one] at h3 h4
          omega
    · rw [imx708_fl_loop_low shift val (by omega)]
      refine ⟨by omega, Nat.le_refl _, ?_, ?_, ?_⟩
      · simp
      · simp
      · intro hc
        omega

/-- The shift count stays within `IMX708_LONG_EXP_SHIFT_MAX = 7` for every
total expressible through the vblank range (whose upper limit is
`2 ^ 7 * 0xffff - mode.height`, so totals never exceed `2 ^ 7 * 0xffff`). -/
theorem imx708_fl_loop_shift_le (val : Nat) (h : val ≤ 2 ^ 7 * 0xffff) :
    (imx708_fl_loop 0 val).1 ≤ 7 := by
  obtain ⟨h1, h2, h3, h4, h5⟩ := imx708_fl_loop_spec val 0
  by_contra hc
  push_neg at hc
  have hge : 0x8000 ≤ (imx708_fl_loop 0 val).2 := h5 (by omega)
  have hpow : 2 ^ 8 ≤ 2 ^ ((imx708_fl_loop 0 val).1 - 0) := by
    apply Nat.pow_le_pow_right (by omega)
    omega
  have hmul : 0x8000 * 2 ^ 8 ≤
      (imx708_fl_loop 0 val).2 * 2 ^ ((imx708_fl_loop 0 val).1 - 0) :=
    Nat.mul_le_mul hge hpow
  have hval : (2 : Nat) ^ 7 * 0xffff = 8388480 := by norm_num
  have hc8 : (0x8000 : Nat) * 2 ^ 8 = 8388608 := by norm_num
  omega

/-- The first attempted write of `imx708_set_frame_length` targets the
16-bit frame-length register with the loop's final value. -/
theorem imx708_set_frame_length_head (env : Env) (s : Dev) (val : Nat) :
    (imx708_set_frame_length env s val).2.2.head? =
      some ⟨IMX708_REG_FRAME_LENGTH, 2, (imx708_fl_loop 0 val).2 % 2 ^ 16⟩ := by
  simp only [imx708_set_frame_length, imx708_write_reg]
  norm_num
  split <;> split <;> simp

/-- C3: a frame-length total that already fits in 16 bits is written
unchanged with shift 0; a larger total is halved into a 16-bit value with
shift at most 7, and `written * 2 ^ shift` lies within
`[total - 2 ^ shift + 1, total]`.  The bound `total ≤ 2 ^ 7 * 0xffff` is the
largest total reachable through the vblank control range. -/
theorem imx708_set_frame_length_spec :
    (∀ (env : Env) (s : Dev) (total : Nat), total ≤ 0xffff →
      (imx708_set_frame_length env s total).2.1.long_exp_shift = 0 ∧
      (imx708_set_frame_length env s total).2.2.head? =
        some ⟨IMX708_REG_FRAME_LENGTH, 2, total⟩) ∧
    (∀ (env : Env) (s : Dev) (total : Nat), 0xffff < total → total ≤ 2 ^ 7 * 0xffff →
      (imx708_set_frame_length env s total).2.1.long_exp_shift ≤ 7 ∧
      ∃ w : Nat, w ≤ 0xffff ∧
        (imx708_set_frame_length env s total).2.2.head? =
          some ⟨IMX708_REG_FRAME_LENGTH, 2, w⟩ ∧
        w * 2 ^ (imx708_set_frame_length env s total).2.1.long_exp_shift ≤ total ∧
        total - 2 ^ (imx708_set_frame_length env s total).2.1.long_exp_shift + 1 ≤
          w * 2 ^ (imx708_set_frame_length env s total).2.1.long_exp_shift) := by
  constructor
  · intro env s total htot
    have hloop : imx708_fl_loop 0 total = (0, total) := imx708_fl_loop_low 0 total htot
    have hst := imx708_set_frame_length_state env s total
    have hhd := imx708_set_frame_length_head env s total
    rw [hloop] at hst hhd
    refine ⟨by rw [hst], ?_⟩
    rw [hhd]
    have : total % 2 ^ 16 = total := by omega
    rw [this]
  · intro env s total hlo hhi
    obtain ⟨h1, _h2, h3, h4, _h5⟩ := imx708_fl_loop_spec total 0
    have hsh : (imx708_fl_loop 0 total).1 ≤ 7 := imx708_fl_loop_shift_le total hhi
    have hst := imx708_set_frame_length_state env s total
    have hsh2 : (imx708_set_frame_length env s total).2.1.long_exp_shift
        = (imx708_fl_loop 0 total).1 := by rw [hst]
    have hhd := imx708_set_frame_length_head env s total
    have hmod : (imx708_fl_loop 0 total).2 % 2 ^ 16 = (imx708_fl_loop 0 total).2 := by
      omega
    rw [hmod] at hhd
    rw [hsh2]
    simp only [Nat.sub_zero] at h3 h4
    refine ⟨hsh, (imx708_fl_loop 0 total).2, h1, hhd, h3, ?_⟩
    have hexp : ((imx708_fl_loop 0 total).2 + 1) * 2 ^ (imx708_fl_loop 0 total).1
        = (imx708_fl_loop 0 total).2 * 2 ^ (imx708_fl_loop 0 total).1
          + 2 ^ (imx708_fl_loop 0 total).1 := by ring
    rw [hexp] at h4
    have hBle : (2 : Nat) ^ (imx708_fl_loop 0 total).1 ≤ 2 ^ 7 :=
      Nat.pow_le_pow_right (by omega) hsh
    generalize hA : (imx708_fl_loop 0 total).2 * 2 ^ (imx708_fl_loop 0 total).1 = A at h3 h4 ⊢
    generalize hB : (2 : Nat) ^ (imx708_fl_loop 0 total).1 = B at h4 hBle ⊢
    omega

/-- C3 witness: spec scenario C, total 131000 yields shift 1 and written
value 65500, and 65500 * 2 lies in [131000 - 2 + 1, 131000]; total 40000
is written unchanged with shift 0. -/
theorem imx708_set_frame_length_spec_witness :
    ((imx708_set_frame_length env_ok dev0 40000).2.1.long_exp_shift = 0 ∧
      (imx708_set_frame_length env_ok dev0 40000).2.2.head? =
        some ⟨IMX708_REG_FRAME_LENGTH, 2, 40000⟩) ∧
    ((imx708_set_frame_length env_ok dev0 131000).2.1.long_exp_shift ≤ 7 ∧
      ∃ w : Nat, w ≤ 0xffff ∧
        (imx708_set_frame_length env_ok dev0 131000).2.2.head? =
          some ⟨IMX708_REG_FRAME_LENGTH, 2, w⟩ ∧
        w * 2 ^ (imx708_set_frame_length env_ok dev0 131000).2.1.long_exp_shift ≤ 131000 ∧
        131000 - 2 ^ (imx708_set_frame_length env_ok dev0 131000).2.1.long_exp_shift + 1 ≤
          w * 2 ^ (imx708_set_frame_length env_ok dev0 131000).2.1.long_exp_shift) :=
  ⟨imx708_set_frame_length_spec.1 env_ok dev0 40000 (by norm_num),
   imx708_set_frame_length_spec.2 env_ok dev0 131000 (by norm_num) (by norm_num)⟩

/-! ## C9: unknown control ids -/

/-- C9 (amended): an unknown control id is rejected with `-EINVAL` only
when power is in active use; when power is not in use the handler returns
0 before reaching the dispatch switch.  In both cases the stored state is
unchanged and no register write is attempted. -/
theorem imx708_unknown_ctrl_spec :
    (∀ (env : Env) (s : Dev) (c : Nat) (v : Int), env.power_in_use = true →
      imx708_set_ctrl env s (.unknown c) v = (-EINVAL, s, [])) ∧
    (∀ (env : Env) (s : Dev) (c : Nat) (v : Int), env.power_in_use = false →
      imx708_set_ctrl env s (.unknown c) v = (0, s, [])) := by
  constructor
  · intro env s c v hp
    simp only [imx708_set_ctrl, ctrlStore, hp]
    norm_num
  · intro env s c v hp
    simp [imx708_set_ctrl, ctrlStore, hp]

/-- C9 witness: concrete instances of both halves of the amended claim. -/
theorem imx708_unknown_ctrl_spec_witness :
    imx708_set_ctrl env_ok dev0 (.unknown 0x98cc) 5 = (-EINVAL, dev0, []) ∧
    imx708_set_ctrl env_unpowered dev0 (.unknown 0x98cc) 5 = (0, dev0, []) :=
  ⟨imx708_unknown_ctrl_spec.1 env_ok dev0 0x98cc 5 (by decide),
   imx708_unknown_ctrl_spec.2 env_unpowered dev0 0x98cc 5 (by decide)⟩

/-- C9 counterexample: with power not in active use, an unknown control id
is accepted with return value 0, not rejected with `-EINVAL` as the claim
requires for every power state. -/
theorem imx708_unknown_ctrl_cex :
    (imx708_set_ctrl env_unpowered dev0 (.unknown 0x98cc) 5).1 = 0 ∧
    (imx708_set_ctrl env_unpowered dev0 (.unknown 0x98cc) 5).1 ≠ -EINVAL := by
  constructor
  · rfl
  · intro h
    simp [imx708_set_ctrl, ctrlStore, env_unpowered, EINVAL] at h

/-! ## C10: analog-gain transport errors are discarded -/

/-- C10: with power in active use and every bus write failing, applying the
analog-gain control still reports success (its write is attempted but the
return code is discarded), while exposure, digital gain, test pattern and
its four colour components, both flips and vblank all propagate `-EIO_errno`. -/
theorem imx708_ana_gain_error_discarded (env : Env) (s : Dev) (v : Int)
    (hp : env.power_in_use = true) (hw : ∀ a l x, env.wr a l x = false) :
    (imx708_set_ctrl env s .analogue_gain v).1 = 0 ∧
    (imx708_set_ctrl env s .analogue_gain v).2.2 ≠ [] ∧
    (imx708_set_ctrl env s .exposure v).1 = -EIO_errno ∧
    (imx708_set_ctrl env s .digital_gain v).1 = -EIO_errno ∧
    (imx708_set_ctrl env s .test_pattern v).1 = -EIO_errno ∧
    (imx708_set_ctrl env s .test_pattern_red v).1 = -EIO_errno ∧
    (imx708_set_ctrl env s .test_pattern_greenr v).1 = -EIO_errno ∧
    (imx708_set_ctrl env s .test_pattern_blue v).1 = -EIO_errno ∧
    (imx708_set_ctrl env s .test_pattern_greenb v).1 = -EIO_errno ∧
    (imx708_set_ctrl env s .hflip v).1 = -EIO_errno ∧
    (imx708_set_ctrl env s .vflip v).1 = -EIO_errno ∧
    (imx708_set_ctrl env s .vblank v).1 = -EIO_errno := by
  simp only [imx708_set_ctrl, ctrlStore, hp, imx708_set_analogue_gain, imx708_set_exposure,
    imx708_write_reg, imx708_set_frame_length, hw, EIO_errno]
  norm_num

/-- C10 witness: concrete instance with an all-failing bus. -/
theorem imx708_ana_gain_error_discarded_witness :
    (imx708_set_ctrl env_deaf dev0 .analogue_gain 200).1 = 0 ∧
    (imx708_set_ctrl env_deaf dev0 .analogue_gain 200).2.2 ≠ [] ∧
    (imx708_set_ctrl env_deaf dev0 .exposure 200).1 = -EIO_errno ∧
    (imx708_set_ctrl env_deaf dev0 .digital_gain 200).1 = -EIO_errno ∧
    (imx708_set_ctrl env_deaf dev0 .test_pattern 200).1 = -EIO_errno ∧
    (imx708_set_ctrl env_deaf dev0 .test_pattern_red 200).1 = -EIO_errno ∧
    (imx708_set_ctrl env_deaf dev0 .test_pattern_greenr 200).1 = -EIO_errno ∧
    (imx708_set_ctrl env_deaf dev0 .test_pattern_blue 200).1 = -EIO_errno ∧
    (imx708_set_ctrl env_deaf dev0 .test_pattern_greenb 200).1 = -EIO_errno ∧
    (imx708_set_ctrl env_deaf dev0 .hflip 200).1 = -EIO_errno ∧
    (imx708_set_ctrl env_deaf dev0 .vflip 200).1 = -EIO_errno ∧
    (imx708_set_ctrl env_deaf dev0 .vblank 200).1 = -EIO_errno :=
  imx708_ana_gain_error_discarded env_deaf dev0 200 (by decide) (fun _ _ _ => rfl)

/-! ## C6: the calibration-applied flag -/

/-- No branch of the control pipeline touches `common_regs_written`. -/
theorem imx708_set_ctrl_common_flag (env : Env) (s : Dev) (id : CtrlId) (v : Int) :
    (imx708_set_ctrl env s id v).2.1.common_regs_written = s.common_regs_written := by
  cases hp : env.power_in_use <;>
    cases id <;>
      simp [imx708_set_ctrl, ctrlStore, imx708_adjust_exposure_range,
        v4l2_ctrl_modify_range, hp, imx708_set_frame_length_state]

/-- C6 counterexample: with a working bus and a calibration sentinel that
reads 0x00 (not the matching value 0x40), `imx708_start_streaming` from the
attach state succeeds and sets the calibration-applied flag even though no
calibration-gain write was performed: the flag does not require a
sentinel-matched patch. -/
theorem imx708_calibration_flag_cex :
    (imx708_start_streaming env_wrong_sentinel dev0).2.1.common_regs_written = true ∧
    (imx708_start_streaming env_wrong_sentinel dev0).1 = 0 ∧
    ((imx708_start_streaming env_wrong_sentinel dev0).2.2.filter
        (fun w => decide
          ((IMX708_REG_BASE_SPC_GAINS_L ≤ w.addr ∧
              w.addr < IMX708_REG_BASE_SPC_GAINS_L + 54) ∨
            (IMX708_REG_BASE_SPC_GAINS_R ≤ w.addr ∧
              w.addr < IMX708_REG_BASE_SPC_GAINS_R + 54)))) = [] := by
  refine ⟨by decide, by decide, by decide⟩

/-- C6 (amended): the calibration-applied flag is false at attach and after
every power-down, is never changed by the control pipeline, and on a start
from a cleared flag it becomes true exactly when the common register list
succeeded, the sentinel read succeeded, and the patch (performed only when
the sentinel matched 0x40) succeeded; a sentinel mismatch skips the patch
but still sets the flag. -/
theorem imx708_calibration_flag_spec :
    (∀ hdr link : Nat, (imx708_initial hdr link).common_regs_written = false) ∧
    (∀ s : Dev, (imx708_power_off s).common_regs_written = false) ∧
    (∀ (env : Env) (s : Dev) (id : CtrlId) (v : Int),
      (imx708_set_ctrl env s id v).2.1.common_regs_written = s.common_regs_written) ∧
    (∀ (env : Env) (s : Dev), s.common_regs_written = false →
      ((imx708_start_streaming env s).2.1.common_regs_written = true ↔
        (imx708_write_regs env mode_common_regs).1 = 0 ∧
        (imx708_read_reg env IMX708_REG_BASE_SPC_GAINS_L 1).1 = 0 ∧
        ((imx708_read_reg env IMX708_REG_BASE_SPC_GAINS_L 1).2 = 0x40 →
          (imx708_apply_spc env).1 = 0))) := by
  refine ⟨?_, ?_, imx708_set_ctrl_common_flag, ?_⟩
  · intro hdr link
    simp [imx708_initial, imx708_set_framing_limits]
  · intro s
    simp [imx708_power_off]
  · intro env s hs
    rcases hw1 : imx708_write_regs env mode_common_regs with ⟨r1, w1⟩
    rcases hrd : imx708_read_reg env IMX708_REG_BASE_SPC_GAINS_L 1 with ⟨rr, v⟩
    rcases hspc : imx708_apply_spc env with ⟨rs, ws⟩
    simp only [imx708_start_streaming, hs, hw1, hrd, hspc]
    by_cases hr1 : r1 = 0
    · subst hr1
      by_cases hrr0 : rr = 0
      · subst hrr0
        by_cases hv : v = 0x40
        · subst hv
          by_cases hrs : rs = 0
          · subst hrs
            simp [imx708_start_streaming_tail_state]
          · simp [hrs, hs]
        · simp [hv, imx708_start_streaming_tail_state]
      · simp [hrr0, hs]
    · simp [hr1, hs]

/-- C6 witness: with a working bus and a matching sentinel, the start
pipeline from the attach state sets the calibration-applied flag; and the
attach state and a post-power-off state have the flag cleared. -/
theorem imx708_calibration_flag_spec_witness :
    (imx708_initial NO_HDR 0).common_regs_written = false ∧
    (imx708_power_off dev_streaming).common_regs_written = false ∧
    (imx708_set_ctrl env_ok dev0 .digital_gain 300).2.1.common_regs_written
      = dev0.common_regs_written ∧
    (imx708_start_streaming env_patch_ok dev0).2.1.common_regs_written = true := by
  refine ⟨imx708_calibration_flag_spec.1 NO_HDR 0,
    imx708_calibration_flag_spec.2.1 dev_streaming,
    imx708_calibration_flag_spec.2.2.1 env_ok dev0 .digital_gain 300,
    (imx708_calibration_flag_spec.2.2.2 env_patch_ok dev0 (by decide)).mpr
      ⟨by decide, by decide, fun _ => by decide⟩⟩

/-! ## C7: start_streaming failure leaves STANDBY, power released -/

/-- The start pipeline never touches the streaming flag, the usage count or
the flip controls. -/
theorem imx708_start_streaming_fields (env : Env) (s : Dev) :
    (imx708_start_streaming env s).2.1.streaming = s.streaming ∧
    (imx708_start_streaming env s).2.1.pm_usage = s.pm_usage ∧
    (imx708_start_streaming env s).2.1.hflip = s.hflip ∧
    (imx708_start_streaming env s).2.1.vflip = s.vflip := by
  rcases hw1 : imx708_write_regs env mode_common_regs with ⟨r1, w1⟩
  rcases hrd : imx708_read_reg env IMX708_REG_BASE_SPC_GAINS_L 1 with ⟨rr, v⟩
  rcases hspc : imx708_apply_spc env with ⟨rs, ws⟩
  simp only [imx708_start_streaming, hw1, hrd, hspc]
  split
  · split
    · simp
    · split
      · split <;> simp [imx708_start_streaming_tail_state]
      · split <;> simp [imx708_start_streaming_tail_state]
  · simp [imx708_start_streaming_tail_state]

theorem imx708_start_streaming_keeps_streaming (env : Env) (s : Dev) :
    (imx708_start_streaming env s).2.1.streaming = s.streaming :=
  (imx708_start_streaming_fields env s).1

theorem imx708_start_streaming_keeps_pm (env : Env) (s : Dev) :
    (imx708_start_streaming env s).2.1.pm_usage = s.pm_usage :=
  (imx708_start_streaming_fields env s).2.1

theorem imx708_start_streaming_keeps_hflip (env : Env) (s : Dev) :
    (imx708_start_streaming env s).2.1.hflip = s.hflip :=
  (imx708_start_streaming_fields env s).2.2.1

theorem imx708_start_streaming_keeps_vflip (env : Env) (s : Dev) :
    (imx708_start_streaming env s).2.1.vflip = s.vflip :=
  (imx708_start_streaming_fields env s).2.2.2

/-- C7: if enabling the stream fails at any pipeline step (power
acquisition, common registers/calibration, mode list, link-frequency
registers, control replay, or the stream-enable write), the state stays
STANDBY, the usage reference taken for the attempt has been released, and
the flip controls are not frozen. -/
theorem imx708_start_failure_leaves_standby (env : Env) (s : Dev)
    (hs : s.streaming = false) (hr : (imx708_set_stream env s true).1 ≠ 0) :
    (imx708_set_stream env s true).2.1.streaming = false ∧
    (imx708_set_stream env s true).2.1.pm_usage = s.pm_usage ∧
    (imx708_set_stream env s true).2.1.hflip.grabbed = s.hflip.grabbed ∧
    (imx708_set_stream env s true).2.1.vflip.grabbed = s.vflip.grabbed := by
  simp only [imx708_set_stream] at hr ⊢
  split at hr
  · exact absurd rfl hr
  · rename_i h1
    simp only [if_neg h1] at hr ⊢
    have htt : (true = true) = True := by simp
    simp only [htt, if_true] at hr ⊢
    split at hr
    · rename_i hpm
      simp only [if_pos hpm]
      simp [hs]
    · rename_i hpm
      simp only [if_neg hpm] at hr ⊢
      split at hr
      · rename_i h2
        simp only [if_pos h2]
        simp [imx708_start_streaming_keeps_streaming, imx708_start_streaming_keeps_pm,
          imx708_start_streaming_keeps_hflip, imx708_start_streaming_keeps_vflip, hs]
      · exact absurd rfl hr

/-- C7 witness: a concrete run in which power acquisition fails: the
streaming flag stays down, the usage count is back to its old value and
the flips are not grabbed. -/
theorem imx708_start_failure_leaves_standby_witness :
    (imx708_set_stream env_pmfail dev0 true).2.1.streaming = false ∧
    (imx708_set_stream env_pmfail dev0 true).2.1.pm_usage = dev0.pm_usage ∧
    (imx708_set_stream env_pmfail dev0 true).2.1.hflip.grabbed = dev0.hflip.grabbed ∧
    (imx708_set_stream env_pmfail dev0 true).2.1.vflip.grabbed = dev0.vflip.grabbed :=
  imx708_start_failure_leaves_standby env_pmfail dev0 (by decide) (by decide)

/-! ## C8: HDR mode override while streaming -/

/-- C8: the RKMODULE_SET_HDR_CFG handler performs no streaming-state check:
with the device STREAMING on the non-HDR 1920x1080 mode, a request for the
HDR variant succeeds (returns 0) and swaps the active mode reference to the
HDR catalog entry, although the spec and the source's own comment state
that an HDR mode change is disallowed while streaming. -/
theorem imx708_hdr_override_while_streaming :
    dev_c8.streaming = true ∧
    (curMode dev_c8).hdr_mode = NO_HDR ∧
    (imx708_set_hdr_cfg dev_c8 HDR_X3).1 = 0 ∧
    (imx708_set_hdr_cfg dev_c8 HDR_X3).2.cur_mode = 2 ∧
    (supported_modes.getD 2 mode_full).hdr_mode = HDR_X3 := by
  refine ⟨rfl, by decide, by decide, by decide, by decide⟩

/-! ## C1: best-fit mode negotiation -/

theorem c_abs_nonneg (i : Int) : 0 ≤ c_abs i := by
  simp only [c_abs]
  split <;> omega

/-- For operands comfortably below the int range, the unsigned-subtract /
signed-reinterpret / `abs()` chain of the source computes the exact
absolute difference. -/
theorem c_abs_u32sub (a b : Nat) (ha : a ≤ 2 ^ 30) (hb : b ≤ 2 ^ 30) :
    c_abs (s32ofU32 (u32sub a b)) = (((a : Int) - b).natAbs : Int) := by
  simp only [u32sub, u32, c_abs, s32ofU32]
  split_ifs <;> omega

/-- Within the same bounds, `imx708_get_reso_dist` equals the spec metric. -/
theorem reso_dist_eq (m : ImxMode) (w h : Nat) (hmw : m.width ≤ 2 ^ 30)
    (hmh : m.height ≤ 2 ^ 30) (hw : w ≤ 2 ^ 30) (hh : h ≤ 2 ^ 30) :
    imx708_get_reso_dist m w h = (absDist m w h : Int) := by
  simp only [imx708_get_reso_dist, absDist]
  rw [c_abs_u32sub _ _ hmw hw, c_abs_u32sub _ _ hmh hh]
  push_cast
  ring

/-- C1 (amended): for requested widths and heights up to `2 ^ 30` — the
range on which the source's unsigned-subtract-then-`abs()` distance equals
`|Δw| + |Δh|` — `imx708_find_best_fit` returns, among catalog entries
matching the requested format code, the entry minimizing `|Δw| + |Δh|`,
ties resolving to the earliest catalog index; for larger u32 requests the
wrapped distance can select a different entry than the `|Δw| + |Δh|`
argmin; and when no entry matches the format code the function silently
returns index 0 (the first catalog entry) instead of failing. -/
theorem imx708_find_best_fit_spec :
    (∀ (code w h : Nat), w ≤ 2 ^ 30 → h ≤ 2 ^ 30 →
      (∃ m ∈ supported_modes, m.bus_fmt = code) →
      imx708_find_best_fit code w h < supported_modes.length ∧
      (supported_modes.getD (imx708_find_best_fit code w h) mode_full).bus_fmt = code ∧
      (∀ j, j < supported_modes.length →
        (supported_modes.getD j mode_full).bus_fmt = code →
        absDist (supported_modes.getD (imx708_find_best_fit code w h) mode_full) w h
            ≤ absDist (supported_modes.getD j mode_full) w h ∧
        (absDist (supported_modes.getD j mode_full) w h =
            absDist (supported_modes.getD (imx708_find_best_fit code w h) mode_full) w h →
          imx708_find_best_fit code w h ≤ j))) ∧
    (∀ (code w h : Nat), (∀ m ∈ supported_modes, m.bus_fmt ≠ code) →
      imx708_find_best_fit code w h = 0) := by
  constructor
  · intro code w h hw hh hex
    have hcode : code = MEDIA_BUS_FMT_SRGGB10_1X10 := by
      obtain ⟨m, hm, hfmt⟩ := hex
      simp only [supported_modes, List.mem_cons, List.not_mem_nil, or_false] at hm
      rcases hm with rfl | rfl | rfl | rfl <;> exact hfmt.symm
    subst hcode
    have e0 : imx708_get_reso_dist mode_full w h = (absDist mode_full w h : Int) :=
      reso_dist_eq _ _ _ (by norm_num [mode_full]) (by norm_num [mode_full]) hw hh
    have e1 : imx708_get_reso_dist mode_binned w h = (absDist mode_binned w h : Int) :=
      reso_dist_eq _ _ _ (by norm_num [mode_binned]) (by norm_num [mode_binned]) hw hh
    have e2 : imx708_get_reso_dist mode_hdr w h = (absDist mode_hdr w h : Int) :=
      reso_dist_eq _ _ _ (by norm_num [mode_hdr]) (by norm_num [mode_hdr]) hw hh
    have e3 : imx708_get_reso_dist mode_binned_720p w h
        = (absDist mode_binned_720p w h : Int) :=
      reso_dist_eq _ _ _ (by norm_num [mode_binned_720p]) (by norm_num [mode_binned_720p])
        hw hh
    have hne0 : ¬ ((absDist mode_full w h : Int) = -1) := by omega
    have hne1 : ¬ ((absDist mode_binned w h : Int) = -1) := by omega
    have hne2 : ¬ ((absDist mode_hdr w h : Int) = -1) := by omega
    have heq12 : absDist mode_binned w h = absDist mode_hdr w h := rfl
    simp only [imx708_find_best_fit, supported_modes, List.enum, List.enumFrom,
      imx708_find_best_fit_aux, e0, e1, e2, e3]
    norm_num [hne0, hne1, hne2]
    split_ifs <;>
      (refine ⟨by norm_num, rfl, ?_⟩
       intro j hj hfmt
       interval_cases j <;>
         (simp only [supported_modes, List.getD_cons_succ, List.getD_cons_zero,
            List.getElem?_cons_zero, List.getElem?_cons_succ, Option.getD_some] at hfmt ⊢
          omega))
  · intro code w h hnone
    have h0 := hnone mode_full (by simp [supported_modes])
    have h1 := hnone mode_binned (by simp [supported_modes])
    have h2 := hnone mode_hdr (by simp [supported_modes])
    have h3 := hnone mode_binned_720p (by simp [supported_modes])
    simp [imx708_find_best_fit, supported_modes, List.enum, List.enumFrom,
      imx708_find_best_fit_aux, h0, h1, h2, h3]

/-- C1 witness: spec scenario A, (SRGGB10, 1920x1080) resolves to a valid,
format-matching, distance-minimal entry; a non-matching code yields
index 0. -/
theorem imx708_find_best_fit_spec_witness :
    (imx708_find_best_fit MEDIA_BUS_FMT_SRGGB10_1X10 1920 1080
        < supported_modes.length ∧
      (supported_modes.getD (imx708_find_best_fit MEDIA_BUS_FMT_SRGGB10_1X10 1920 1080)
          mode_full).bus_fmt = MEDIA_BUS_FMT_SRGGB10_1X10) ∧
    imx708_find_best_fit 0x9999 1920 1080 = 0 := by
  have h := imx708_find_best_fit_spec.1 MEDIA_BUS_FMT_SRGGB10_1X10 1920 1080
    (by norm_num) (by norm_num) ⟨mode_full, by simp [supported_modes], rfl⟩
  exact ⟨⟨h.1, h.2.1⟩, imx708_find_best_fit_spec.2 0x9999 1920 1080 (by decide)⟩

/-- C1 counterexample, both failures of the claim as stated.  First, for a
format code matching no catalog entry the source does not fail with an
invalid-argument condition: it returns the first catalog entry (whose
format differs from the request).  Second, the claimed `|Δw| + |Δh|`
minimization fails at a reachable request: at (SRGGB10, 2^32 - 10, 1080)
— any u32 width userspace passes through set_fmt — the source's wrapped
distance selects entry 3, although the format-matching entry 0 has a
strictly smaller `|Δw| + |Δh|`. -/
theorem imx708_find_best_fit_cex :
    ((∀ m ∈ supported_modes, m.bus_fmt ≠ 0x2006) ∧
      imx708_find_best_fit 0x2006 1920 1080 = 0 ∧
      (supported_modes.getD 0 mode_full).bus_fmt ≠ 0x2006) ∧
    (imx708_find_best_fit MEDIA_BUS_FMT_SRGGB10_1X10 (2 ^ 32 - 10) 1080 = 3 ∧
      (supported_modes.getD 0 mode_full).bus_fmt = MEDIA_BUS_FMT_SRGGB10_1X10 ∧
      absDist (supported_modes.getD 0 mode_full) (2 ^ 32 - 10) 1080
        < absDist (supported_modes.getD 3 mode_full) (2 ^ 32 - 10) 1080) := by
  refine ⟨⟨by decide, by decide, by decide⟩, by decide, by decide, by decide⟩

end Imx708
